import Mathlib

/-!
Verification of the accessibility-settings overlay
(`src/components/Accessibility.tsx`) of the mile3pizza repository.

The component is embedded shallowly:
* the TypeScript interface `AccessibilitySettings` becomes a Lean structure
  (the two string-literal union types become two-constructor enums carrying
  their literal spellings);
* the browser facilities the component calls (`localStorage`,
  `JSON.parse` / `JSON.stringify`, the DOM) are modelled by explicit state:
  the store is an `Option StoredText`, a JavaScript value reachable through
  JSON is a `JsValue`, and the page is a `Dom` record of the style slots and
  the element list the component touches;
* each React state update (`setSettings`) together with the effects it
  triggers (`useEffect` on `[settings]`) becomes a function on an explicit
  component state.
-/

namespace Mile3Pizza

/-- The `textSize` field of the interface: the union `"1em" | "1.25em"`. -/
inductive TextSize
  | em1
  | em1_25
deriving DecidableEq, Repr

/-- The literal string carried by a `TextSize` value (the TypeScript value
itself is that string). -/
def TextSize.value : TextSize → String
  | .em1 => "1em"
  | .em1_25 => "1.25em"

/-- The `spacing` field of the interface: the union `"normal" | "wide"`. -/
inductive Spacing
  | normal
  | wide
deriving DecidableEq, Repr

/-- The literal string carried by a `Spacing` value. -/
def Spacing.value : Spacing → String
  | .normal => "normal"
  | .wide => "wide"

/-- The `font` field of the interface: the union `"sans-serif" | "serif"`. -/
inductive Font
  | sansSerif
  | serif
deriving DecidableEq, Repr

/-- The literal string carried by a `Font` value. -/
def Font.value : Font → String
  | .sansSerif => "sans-serif"
  | .serif => "serif"

/-- The `AccessibilitySettings` interface (Accessibility.tsx lines 6-19),
field for field in source order. -/
structure AccessibilitySettings where
  highlightLinks : Bool
  colorShift : Bool
  animationsEnabled : Bool
  highContrast : Bool
  focusEnabled : Bool
  cursorEnabled : Bool
  textSize : TextSize
  spacing : Spacing
  font : Font
  imagesVisible : Bool
  showPageStructure : Bool
  guideEnabled : Bool
deriving DecidableEq, Repr

/-- The `defaultSettings` literal (lines 22-35). -/
def defaultSettings : AccessibilitySettings where
  highlightLinks := false
  colorShift := false
  animationsEnabled := true
  highContrast := false
  focusEnabled := false
  cursorEnabled := false
  textSize := TextSize.em1
  spacing := Spacing.normal
  font := Font.sansSerif
  imagesVisible := true
  showPageStructure := false
  guideEnabled := false

/-! ## JSON layer

The component stores the record with `JSON.stringify` and reads it back with
`JSON.parse` (lines 44-52).  `JsValue` models a JavaScript value in the image
of JSON (the fragment needed here: booleans, strings, objects).  `StoredText`
models the text found under the storage key: either well-formed JSON text
denoting some `JsValue`, or text that is not valid JSON.  The ECMAScript
contract modelled here: `JSON.parse` of the text produced by
`JSON.stringify v` yields `v` back for plain data, and `JSON.parse` of text
that is not valid JSON throws a `SyntaxError`. -/

/-- A JavaScript value in the image of JSON (fragment used by the record). -/
inductive JsValue
  | bool (b : Bool)
  | str (s : String)
  | obj (fields : List (String × JsValue))

/-- The text stored under the key: well-formed JSON text for some value, or
text that is not valid JSON. -/
inductive StoredText
  | wellFormed (v : JsValue)
  | malformed

/-- `JSON.parse` on stored text: returns the denoted value, or throws
(modelled as `Except.error`) on text that is not valid JSON.  The source
calls it bare, with no `try`/`catch` around it (line 46). -/
def jsonParse : StoredText → Except String JsValue
  | .wellFormed v => Except.ok v
  | .malformed => Except.error "SyntaxError"

/-- `JSON.stringify` on the settings record: the object literal with the
twelve fields in interface order (this is the shape `{...settings}` has at
line 52). -/
def serialize (s : AccessibilitySettings) : JsValue :=
  JsValue.obj
    [ ("highlightLinks", JsValue.bool s.highlightLinks)
    , ("colorShift", JsValue.bool s.colorShift)
    , ("animationsEnabled", JsValue.bool s.animationsEnabled)
    , ("highContrast", JsValue.bool s.highContrast)
    , ("focusEnabled", JsValue.bool s.focusEnabled)
    , ("cursorEnabled", JsValue.bool s.cursorEnabled)
    , ("textSize", JsValue.str s.textSize.value)
    , ("spacing", JsValue.str s.spacing.value)
    , ("font", JsValue.str s.font.value)
    , ("imagesVisible", JsValue.bool s.imagesVisible)
    , ("showPageStructure", JsValue.bool s.showPageStructure)
    , ("guideEnabled", JsValue.bool s.guideEnabled)
    ]

/-- Key lookup in a JavaScript object's field list (first match, like
property access). -/
def jsLookup (k : String) : List (String × JsValue) → Option JsValue
  | [] => none
  | (k', v) :: fs => if k' = k then some v else jsLookup k fs

/-- Read a JavaScript value as a boolean. -/
def asBool : JsValue → Option Bool
  | .bool b => some b
  | _ => none

/-- Read a JavaScript value as a `textSize` literal. -/
def asTextSize : JsValue → Option TextSize
  | .str "1em" => some TextSize.em1
  | .str "1.25em" => some TextSize.em1_25
  | _ => none

/-- Read a JavaScript value as a `spacing` literal. -/
def asSpacing : JsValue → Option Spacing
  | .str "normal" => some Spacing.normal
  | .str "wide" => some Spacing.wide
  | _ => none

/-- Read a JavaScript value as a `font` literal. -/
def asFont : JsValue → Option Font
  | .str "sans-serif" => some Font.sansSerif
  | .str "serif" => some Font.serif
  | _ => none

/-- A JavaScript value is a fully populated, well-typed settings record
exactly when this decoder succeeds: every one of the twelve fields is
present and carries a value of its declared type. -/
def decodeSettings : JsValue → Option AccessibilitySettings
  | .obj fs => do
      let highlightLinks ← jsLookup "highlightLinks" fs >>= asBool
      let colorShift ← jsLookup "colorShift" fs >>= asBool
      let animationsEnabled ← jsLookup "animationsEnabled" fs >>= asBool
      let highContrast ← jsLookup "highContrast" fs >>= asBool
      let focusEnabled ← jsLookup "focusEnabled" fs >>= asBool
      let cursorEnabled ← jsLookup "cursorEnabled" fs >>= asBool
      let textSize ← jsLookup "textSize" fs >>= asTextSize
      let spacing ← jsLookup "spacing" fs >>= asSpacing
      let font ← jsLookup "font" fs >>= asFont
      let imagesVisible ← jsLookup "imagesVisible" fs >>= asBool
      let showPageStructure ← jsLookup "showPageStructure" fs >>= asBool
      let guideEnabled ← jsLookup "guideEnabled" fs >>= asBool
      pure
        { highlightLinks := highlightLinks
          colorShift := colorShift
          animationsEnabled := animationsEnabled
          highContrast := highContrast
          focusEnabled := focusEnabled
          cursorEnabled := cursorEnabled
          textSize := textSize
          spacing := spacing
          font := font
          imagesVisible := imagesVisible
          showPageStructure := showPageStructure
          guideEnabled := guideEnabled }
  | _ => none

/-! ## Storage operations -/

/-- The fixed storage key is `"accessibilitySettings"`; the store holds at
most one value under it, so it is modelled as the optional stored text. -/
def Store : Type := Option StoredText

/-- The save effect (lines 51-53): `localStorage.setItem` of
`JSON.stringify(settings)` under the fixed key — a plain overwrite of the
whole record, ignoring what was stored before. -/
def save (s : AccessibilitySettings) (_store : Store) : Store :=
  some (StoredText.wellFormed (serialize s))

/-- The mount-time load effect (lines 43-48): `getItem` then, if a value is
present, `JSON.parse` of it with no error handling; if absent, the state
keeps `defaultSettings`.  The result is the JavaScript value the state ends
with, or the uncaught exception `JSON.parse` throws. -/
def load (store : Store) : Except String JsValue :=
  match store with
  | none => Except.ok (serialize defaultSettings)
  | some t => jsonParse t

/-! ## Mutations of the settings record

`handleSettingChange` (lines 130-135) is generic over the field key `K` and
a value of the field's declared type; a `Mutation` packages the key with a
well-typed value for it.  `FieldKey` and `FieldValue` let the frame property
be stated uniformly over all twelve fields. -/

/-- The twelve field keys of `AccessibilitySettings`, in interface order. -/
inductive FieldKey
  | highlightLinks
  | colorShift
  | animationsEnabled
  | highContrast
  | focusEnabled
  | cursorEnabled
  | textSize
  | spacing
  | font
  | imagesVisible
  | showPageStructure
  | guideEnabled
deriving DecidableEq, Repr

/-- A value a settings field can hold. -/
inductive FieldValue
  | bool (b : Bool)
  | textSize (t : TextSize)
  | spacing (sp : Spacing)
  | font (f : Font)
deriving DecidableEq, Repr

/-- Projection of one field of the record, uniformly over keys. -/
def getField : FieldKey → AccessibilitySettings → FieldValue
  | .highlightLinks, s => FieldValue.bool s.highlightLinks
  | .colorShift, s => FieldValue.bool s.colorShift
  | .animationsEnabled, s => FieldValue.bool s.animationsEnabled
  | .highContrast, s => FieldValue.bool s.highContrast
  | .focusEnabled, s => FieldValue.bool s.focusEnabled
  | .cursorEnabled, s => FieldValue.bool s.cursorEnabled
  | .textSize, s => FieldValue.textSize s.textSize
  | .spacing, s => FieldValue.spacing s.spacing
  | .font, s => FieldValue.font s.font
  | .imagesVisible, s => FieldValue.bool s.imagesVisible
  | .showPageStructure, s => FieldValue.bool s.showPageStructure
  | .guideEnabled, s => FieldValue.bool s.guideEnabled

/-- A key paired with a well-typed value for it: the argument pair of
`handleSettingChange<K>(key, value)`. -/
inductive Mutation
  | setHighlightLinks (b : Bool)
  | setColorShift (b : Bool)
  | setAnimationsEnabled (b : Bool)
  | setHighContrast (b : Bool)
  | setFocusEnabled (b : Bool)
  | setCursorEnabled (b : Bool)
  | setTextSize (t : TextSize)
  | setSpacing (sp : Spacing)
  | setFont (f : Font)
  | setImagesVisible (b : Bool)
  | setShowPageStructure (b : Bool)
  | setGuideEnabled (b : Bool)
deriving DecidableEq, Repr

/-- The field key a mutation addresses. -/
def Mutation.key : Mutation → FieldKey
  | .setHighlightLinks _ => FieldKey.highlightLinks
  | .setColorShift _ => FieldKey.colorShift
  | .setAnimationsEnabled _ => FieldKey.animationsEnabled
  | .setHighContrast _ => FieldKey.highContrast
  | .setFocusEnabled _ => FieldKey.focusEnabled
  | .setCursorEnabled _ => FieldKey.cursorEnabled
  | .setTextSize _ => FieldKey.textSize
  | .setSpacing _ => FieldKey.spacing
  | .setFont _ => FieldKey.font
  | .setImagesVisible _ => FieldKey.imagesVisible
  | .setShowPageStructure _ => FieldKey.showPageStructure
  | .setGuideEnabled _ => FieldKey.guideEnabled

/-- The value a mutation writes. -/
def Mutation.val : Mutation → FieldValue
  | .setHighlightLinks b => FieldValue.bool b
  | .setColorShift b => FieldValue.bool b
  | .setAnimationsEnabled b => FieldValue.bool b
  | .setHighContrast b => FieldValue.bool b
  | .setFocusEnabled b => FieldValue.bool b
  | .setCursorEnabled b => FieldValue.bool b
  | .setTextSize t => FieldValue.textSize t
  | .setSpacing sp => FieldValue.spacing sp
  | .setFont f => FieldValue.font f
  | .setImagesVisible b => FieldValue.bool b
  | .setShowPageStructure b => FieldValue.bool b
  | .setGuideEnabled b => FieldValue.bool b

/-- `handleSettingChange` (lines 130-135): the spread
`{ ...prev, [key]: value }` — one field replaced, the rest copied. -/
def handleSettingChange (m : Mutation) (prev : AccessibilitySettings) :
    AccessibilitySettings :=
  match m with
  | .setHighlightLinks b => { prev with highlightLinks := b }
  | .setColorShift b => { prev with colorShift := b }
  | .setAnimationsEnabled b => { prev with animationsEnabled := b }
  | .setHighContrast b => { prev with highContrast := b }
  | .setFocusEnabled b => { prev with focusEnabled := b }
  | .setCursorEnabled b => { prev with cursorEnabled := b }
  | .setTextSize t => { prev with textSize := t }
  | .setSpacing sp => { prev with spacing := sp }
  | .setFont f => { prev with font := f }
  | .setImagesVisible b => { prev with imagesVisible := b }
  | .setShowPageStructure b => { prev with showPageStructure := b }
  | .setGuideEnabled b => { prev with guideEnabled := b }

/-- `togglePageStructure` (lines 120-122): the spread
`{ ...prev, showPageStructure: !prev.showPageStructure }`. -/
def togglePageStructure (prev : AccessibilitySettings) : AccessibilitySettings :=
  { prev with showPageStructure := !prev.showPageStructure }

/-! ## Component state: settings plus store

Every `setSettings` is followed (by the effect on `[settings]`, lines 51-53)
by a `save` of the new record; each state-changing entry point is that pair. -/

/-- The component's persistent-relevant state: the in-memory record and the
local store. -/
structure ComponentState where
  settings : AccessibilitySettings
  store : Store

/-- The save effect that runs after every settings change (lines 51-53). -/
def persistEffect (st : ComponentState) : ComponentState :=
  { st with store := save st.settings st.store }

/-- A single-field mutation followed by its save effect. -/
def applyChange (m : Mutation) (st : ComponentState) : ComponentState :=
  persistEffect { st with settings := handleSettingChange m st.settings }

/-- `togglePageStructure` followed by its save effect. -/
def applyToggleStructure (st : ComponentState) : ComponentState :=
  persistEffect { st with settings := togglePageStructure st.settings }

/-- `resetSettings` (lines 125-127) — `setSettings(defaultSettings)` —
followed by its save effect. -/
def applyReset (st : ComponentState) : ComponentState :=
  persistEffect { st with settings := defaultSettings }

/-! ## DOM model

Only what the applier effect (lines 56-117) and the page-structure
inspector (lines 138-183) touch is modelled: the root/body style slots the
effect assigns, and a list of elements (in document order) with the inline
style properties the effect writes.  Tag names are stored lowercase, so the
source's `tagName.toLowerCase()` is the identity on them. -/

/-- The inline style properties the component writes on individual
elements. -/
structure ElemStyle where
  backgroundColor : String := ""
  outline : String := ""
  display : String := ""
  position : String := ""
  top : String := ""
  left : String := ""
  width : String := ""
  height : String := ""
  zIndex : String := ""
  pointerEvents : String := ""
deriving DecidableEq, Repr

/-- An element of the page, with the attributes the component reads and the
inline style it writes. -/
structure Elem where
  tag : String
  id : String := ""
  href : Option String := none
  textContent : String := ""
  style : ElemStyle := {}
deriving DecidableEq, Repr

/-- The page state the applier manipulates: the root (`documentElement`) and
body style slots, and the element list. -/
structure Dom where
  rootFontSize : String := ""
  rootFilter : String := ""
  rootLetterSpacing : String := ""
  rootFontFamily : String := ""
  rootAnimation : String := ""
  bodyCursor : String := ""
  elems : List Elem := []
deriving DecidableEq, Repr

/-- JavaScript's `String.prototype.trim`, modelled structurally (the
library `String.trim` is not kernel-reducible): strip whitespace from both
ends of the character list. -/
def jsTrim (s : String) : String :=
  String.mk
    (((s.toList.dropWhile Char.isWhitespace).reverse.dropWhile
        Char.isWhitespace).reverse)

/-- The filter computation (lines 66-69): start from the empty string,
append a contrast term if `highContrast`, an invert term if `colorShift`,
then `filterStr.trim() || "none"` (the empty string is falsy). -/
def filterString (s : AccessibilitySettings) : String :=
  let f := ""
  let f := if s.highContrast then f ++ " contrast(2)" else f
  let f := if s.colorShift then f ++ " invert(1)" else f
  if jsTrim f = "" then "none" else jsTrim f

/-- The link pass (lines 58-60): background highlight on every `a`. -/
def styleLink (s : AccessibilitySettings) (e : Elem) : Elem :=
  if e.tag = "a" then
    { e with style :=
        { e.style with backgroundColor := if s.highlightLinks then "#FFFF00" else "" } }
  else e

/-- The focus pass (lines 82-85): outline on every element
(`querySelectorAll("*")`). -/
def styleOutline (s : AccessibilitySettings) (e : Elem) : Elem :=
  { e with style :=
      { e.style with outline := if s.focusEnabled then "2px solid #0000FF" else "" } }

/-- The image pass (lines 91-94): display `"block"` or `"none"` on every
`img`. -/
def styleImg (s : AccessibilitySettings) (e : Elem) : Elem :=
  if e.tag = "img" then
    { e with style :=
        { e.style with display := if s.imagesVisible then "block" else "none" } }
  else e

/-- The fixed identifier of the reading-guide line (line 97). -/
def guideId : String := "reading-guide-line"

/-- The guide-line element as created by lines 102-112 (a `div` with the
fixed id and the listed inline styles; untouched inline properties are the
empty string). -/
def guideLineElem : Elem where
  tag := "div"
  id := guideId
  style :=
    { position := "fixed"
      top := "50%"
      left := "0"
      width := "100%"
      height := "2px"
      backgroundColor := "red"
      zIndex := "1000"
      pointerEvents := "none" }

/-- Whether `document.getElementById(guideId)` finds an element. -/
def hasGuide (es : List Elem) : Bool :=
  es.any fun e => e.id = guideId

/-- `guideLine.remove()` on the element `getElementById` returned: the first
element bearing the guide id is removed (no-op when none is present). -/
def removeFirstGuide : List Elem → List Elem
  | [] => []
  | e :: es => if e.id = guideId then es else e :: removeFirstGuide es

/-- The applier effect (lines 56-117) in source order: the link pass, the
root font size, the filter, the letter spacing, the font family, the
animation switch, the focus pass over all elements, the body cursor, the
image pass, and finally the guide-line create/remove step (`appendChild`
puts the created line at the end of the document). -/
def applySettings (s : AccessibilitySettings) (d : Dom) : Dom :=
  let es := d.elems.map (styleLink s)
  let fontSize := s.textSize.value
  let filterVal := filterString s
  let letterSpacing := if s.spacing = Spacing.wide then "0.1em" else "normal"
  let fontFamily := s.font.value
  let animation := if s.animationsEnabled then "" else "none"
  let es := es.map (styleOutline s)
  let cursor := if s.cursorEnabled then "pointer" else ""
  let es := es.map (styleImg s)
  let es :=
    if s.guideEnabled then
      if hasGuide es then es else es ++ [guideLineElem]
    else removeFirstGuide es
  { rootFontSize := fontSize
    rootFilter := filterVal
    rootLetterSpacing := letterSpacing
    rootFontFamily := fontFamily
    rootAnimation := animation
    bodyCursor := cursor
    elems := es }

/-- The guide-line create/remove step of the applier (lines 96-116) as a
function of the element list it runs on. -/
def guideStep (s : AccessibilitySettings) (es : List Elem) : List Elem :=
  if s.guideEnabled then
    if hasGuide es then es else es ++ [guideLineElem]
  else removeFirstGuide es

/-- The page produced by one applier run: the root and body style slots
(functions of the settings alone) around a given element list. -/
def mkDom (s : AccessibilitySettings) (es : List Elem) : Dom where
  rootFontSize := s.textSize.value
  rootFilter := filterString s
  rootLetterSpacing := if s.spacing = Spacing.wide then "0.1em" else "normal"
  rootFontFamily := s.font.value
  rootAnimation := if s.animationsEnabled then "" else "none"
  bodyCursor := if s.cursorEnabled then "pointer" else ""
  elems := es

/-! ## Page-structure inspector (lines 138-183) -/

/-- The selector `"header, nav, main, footer"`. -/
def landmarkTags : List String := ["header", "nav", "main", "footer"]

/-- The selector `"h1, h2, h3, h4, h5, h6"`. -/
def headingTags : List String := ["h1", "h2", "h3", "h4", "h5", "h6"]

/-- One landmark entry (line 151): tag, then `(id: ...)` with `N/A` for a
falsy (empty) id. -/
def landmarkEntry (e : Elem) : String :=
  e.tag ++ " (id: " ++ (if e.id = "" then "N/A" else e.id) ++ ")"

/-- One heading entry (line 163): tag, then the trimmed text content, with
`N/A` for falsy (empty) text content. -/
def headingEntry (e : Elem) : String :=
  e.tag ++ ": " ++ (if e.textContent = "" then "N/A" else jsTrim e.textContent)

/-- One link entry (line 175): `getAttribute("href") || "N/A"` (absent or
empty href is falsy). -/
def linkEntry (e : Elem) : String :=
  match e.href with
  | none => "N/A"
  | some h => if h = "" then "N/A" else h

/-- The rendered inspector: each of the three sections is emitted only under
a `length > 0` guard (lines 145, 157, 169); `none` models the absent
section. -/
structure PageStructureView where
  landmarkSection : Option (List String)
  headingSection : Option (List String)
  linkSection : Option (List String)
deriving DecidableEq, Repr

/-- `renderPageStructure` (lines 138-183): query the three element lists in
document order, then render each non-empty list as a section of entries. -/
def renderPageStructure (d : Dom) : PageStructureView :=
  let landmarks := d.elems.filter fun e => landmarkTags.contains e.tag
  let headings := d.elems.filter fun e => headingTags.contains e.tag
  let links := d.elems.filter fun e => e.tag = "a"
  { landmarkSection :=
      if landmarks.length > 0 then some (landmarks.map landmarkEntry) else none
    headingSection :=
      if headings.length > 0 then some (headings.map headingEntry) else none
    linkSection :=
      if links.length > 0 then some (links.map linkEntry) else none }

/-- Whether the second character list starts with the first. -/
def listStartsWith : List Char → List Char → Bool
  | _, [] => true
  | [], _ :: _ => false
  | c :: cs, d :: ds => c = d && listStartsWith cs ds

/-- Whether the needle occurs somewhere in the hay. -/
def listOccurs (needle : List Char) : List Char → Bool
  | [] => needle.isEmpty
  | c :: cs => listStartsWith (c :: cs) needle || listOccurs needle cs

/-- Occurrence of one string inside another (JavaScript's
`String.prototype.includes`), at the character-list level so that it is
kernel-reducible. -/
def strOccurs (needle hay : String) : Bool :=
  listOccurs needle.toList hay.toList

/-- The per-element style work of one applier run: the link pass, then the
focus pass, then the image pass (the composition of the three `forEach`
passes restricted to a single element). -/
def styleAll (s : AccessibilitySettings) (e : Elem) : Elem :=
  styleImg s (styleOutline s (styleLink s e))

/-- The number of elements bearing the guide id. -/
def countGuide (es : List Elem) : Nat :=
  (es.filter fun e => e.id = guideId).length

/-- An empty page. -/
def emptyDom : Dom := {}

/-- Settings with both the focus outline and the reading guide enabled. -/
def focusGuideSettings : AccessibilitySettings :=
  { defaultSettings with focusEnabled := true, guideEnabled := true }

/-- A page holding two headings and no landmarks (and no links). -/
def twoHeadingsPage : Dom where
  elems :=
    [ { tag := "h1", textContent := "Menu" }
    , { tag := "h2", textContent := "Hours" } ]

/-- A page holding one image whose initial inline display is `"inline"`. -/
def inlineImgDom : Dom where
  elems := [ { tag := "img", style := { display := "inline" } } ]

/-! ## Theorems -/

/-- Round-trip of the record through its JSON object form: reading the
twelve fields back from `serialize s` recovers `s`. -/
theorem decode_serialize (s : AccessibilitySettings) :
    decodeSettings (serialize s) = some s := by
  obtain ⟨hl, cs, ae, hc, fe, ce, ts, sp, f, iv, sps, ge⟩ := s
  cases ts <;> cases sp <;> cases f <;> rfl

/-- The filter string by cases on the two fields it reads. -/
theorem filterString_cases (s : AccessibilitySettings) :
    filterString s =
      (match s.highContrast, s.colorShift with
        | true, true => "contrast(2) invert(1)"
        | true, false => "contrast(2)"
        | false, true => "invert(1)"
        | false, false => "none") := by
  obtain ⟨hl, cs, ae, hc, fe, ce, ts, sp, f, iv, sps, ge⟩ := s
  cases hc <;> cases cs <;> rfl

/-- A guarded section is present exactly when its list is non-empty. -/
theorem isSome_of_guarded {α β : Type} (L : List α) (f : List α → β) :
    (if L.length > 0 then some (f L) else none).isSome = !L.isEmpty := by
  cases L <;> simp

/-- C1: on a missing key, `load` keeps the default record; but on stored
text that is not valid JSON, the bare `JSON.parse` at line 46 — with no
`try`/`catch` around it — makes `load` throw a `SyntaxError` instead of
returning the default record, contradicting the fail-soft contract the
specification states in sections 4.1, 7 and 8. -/
theorem load_fails_hard_on_malformed :
    load none = Except.ok (serialize defaultSettings)
  ∧ load (some StoredText.malformed) = Except.error "SyntaxError" :=
  ⟨rfl, rfl⟩

/-- C2 counterexample: the store may hold well-formed JSON text whose value
is not a settings record — here the text `{}` denoting the empty object.
`load` then succeeds, the component installs the parsed value unvalidated
(line 46), and the resulting in-memory state has none of the twelve fields:
the full-population invariant fails after the mount-time load. -/
theorem load_installs_unvalidated_record :
    load (some (StoredText.wellFormed (JsValue.obj [])))
      = Except.ok (JsValue.obj [])
  ∧ decodeSettings (JsValue.obj []) = none :=
  ⟨rfl, rfl⟩

/-- C2 (amended): the record is fully populated after a mount-time load
that found the key missing or found the serialization of a valid record,
and single-field mutations, the page-structure toggle and reset all map
fully populated records to fully populated records; but a persisted value
that parses as JSON without being a complete record is installed
unvalidated (see the counterexample). -/
theorem settings_population_amended (s : AccessibilitySettings) (m : Mutation) :
    load none = Except.ok (serialize defaultSettings)
  ∧ decodeSettings (serialize defaultSettings) = some defaultSettings
  ∧ load (some (StoredText.wellFormed (serialize s))) = Except.ok (serialize s)
  ∧ decodeSettings (serialize (handleSettingChange m s))
      = some (handleSettingChange m s)
  ∧ decodeSettings (serialize (togglePageStructure s))
      = some (togglePageStructure s)
  ∧ decodeSettings (serialize defaultSettings) = some defaultSettings :=
  ⟨rfl, decode_serialize defaultSettings, rfl,
    decode_serialize (handleSettingChange m s),
    decode_serialize (togglePageStructure s),
    decode_serialize defaultSettings⟩

/-- C3: `save S` followed by `load` yields exactly the serialized form of
`S`, and that form decodes back to `S`: the round-trip through the fixed
storage key is the identity on valid settings records. -/
theorem save_load_roundtrip (s : AccessibilitySettings) (store : Store) :
    load (save s store) = Except.ok (serialize s)
  ∧ decodeSettings (serialize s) = some s :=
  ⟨rfl, decode_serialize s⟩

/-- C4: after any sequence of single-field mutations from any starting
state, reset sets the record to `defaultSettings` and persists exactly its
serialization; and `defaultSettings` is the documented default (all
booleans false except `animationsEnabled` and `imagesVisible`;
`textSize = "1em"` (normal), `spacing = "normal"`, `font = "sans-serif"`). -/
theorem reset_restores_and_persists_defaults
    (ms : List Mutation) (st : ComponentState) :
    (applyReset (ms.foldl (fun acc m => applyChange m acc) st)).settings
      = defaultSettings
  ∧ (applyReset (ms.foldl (fun acc m => applyChange m acc) st)).store
      = some (StoredText.wellFormed (serialize defaultSettings))
  ∧ defaultSettings =
      { highlightLinks := false
        colorShift := false
        animationsEnabled := true
        highContrast := false
        focusEnabled := false
        cursorEnabled := false
        textSize := TextSize.em1
        spacing := Spacing.normal
        font := Font.sansSerif
        imagesVisible := true
        showPageStructure := false
        guideEnabled := false } :=
  ⟨rfl, rfl, rfl⟩

/-- C6: the visual filter string is determined by `highContrast` and
`colorShift` alone: contrast term only, both terms, invert term only, or
the literal `"none"`, in the four combinations. -/
theorem filter_terms_of_contrast_and_shift (s : AccessibilitySettings) :
    (s.highContrast = true → s.colorShift = false →
        filterString s = "contrast(2)"
      ∧ strOccurs "contrast" (filterString s) = true
      ∧ strOccurs "invert" (filterString s) = false)
  ∧ (s.highContrast = true → s.colorShift = true →
        filterString s = "contrast(2) invert(1)"
      ∧ strOccurs "contrast" (filterString s) = true
      ∧ strOccurs "invert" (filterString s) = true)
  ∧ (s.highContrast = false → s.colorShift = true →
        filterString s = "invert(1)"
      ∧ strOccurs "invert" (filterString s) = true
      ∧ strOccurs "contrast" (filterString s) = false)
  ∧ (s.highContrast = false → s.colorShift = false →
        filterString s = "none") := by
  refine ⟨fun h1 h2 => ?_, fun h1 h2 => ?_, fun h1 h2 => ?_, fun h1 h2 => ?_⟩ <;>
    rw [filterString_cases, h1, h2] <;> decide

/-- C6 witness: the theorem instantiated at the record with only
`highContrast` enabled. -/
theorem filter_terms_of_contrast_and_shift_witness :
    filterString { defaultSettings with highContrast := true } = "contrast(2)"
  ∧ strOccurs "contrast"
      (filterString { defaultSettings with highContrast := true }) = true
  ∧ strOccurs "invert"
      (filterString { defaultSettings with highContrast := true }) = false :=
  (filter_terms_of_contrast_and_shift
    { defaultSettings with highContrast := true }).1 rfl rfl

/-- C7: every state-changing entry point — a single-field mutation, the
page-structure toggle, reset — is followed by exactly one save that writes
the serialization of the new in-memory record under the fixed key; the
write is a plain overwrite, independent of what the store held before. -/
theorem mutation_persists_serialized_record (m : Mutation) (st : ComponentState) :
    (applyChange m st).settings = handleSettingChange m st.settings
  ∧ (applyChange m st).store
      = some (StoredText.wellFormed (serialize (applyChange m st).settings))
  ∧ (applyToggleStructure st).store
      = some (StoredText.wellFormed (serialize (togglePageStructure st.settings)))
  ∧ (applyReset st).store
      = some (StoredText.wellFormed (serialize defaultSettings))
  ∧ (∀ other : Store,
      save (handleSettingChange m st.settings) other
        = save (handleSettingChange m st.settings) st.store) :=
  ⟨rfl, rfl, rfl, rfl, fun _ => rfl⟩

/-- C8: the page-structure inspector is a pure function of the page; each
of the three sections is rendered exactly when its queried list is
non-empty, independently of the other two; on a page with two headings and
no landmarks the heading section carries two entries and the landmark
section is absent. -/
theorem page_structure_sections (d : Dom) :
    (renderPageStructure d).landmarkSection.isSome
      = !(d.elems.filter fun e => landmarkTags.contains e.tag).isEmpty
  ∧ (renderPageStructure d).headingSection.isSome
      = !(d.elems.filter fun e => headingTags.contains e.tag).isEmpty
  ∧ (renderPageStructure d).linkSection.isSome
      = !(d.elems.filter fun e => e.tag = "a").isEmpty
  ∧ (renderPageStructure twoHeadingsPage).headingSection
      = some ["h1: Menu", "h2: Hours"]
  ∧ ((renderPageStructure twoHeadingsPage).headingSection.getD []).length = 2
  ∧ (renderPageStructure twoHeadingsPage).landmarkSection = none := by
  refine ⟨?_, ?_, ?_, rfl, rfl, rfl⟩
  · exact isSome_of_guarded _ _
  · exact isSome_of_guarded _ _
  · exact isSome_of_guarded _ _

/-- C9: a single-field mutation writes exactly its value into its field and
leaves every other field unchanged; `togglePageStructure` negates
`showPageStructure` and leaves every other field unchanged. -/
theorem single_field_mutation_frame
    (m : Mutation) (s : AccessibilitySettings) (k : FieldKey) :
    getField m.key (handleSettingChange m s) = m.val
  ∧ (k ≠ m.key → getField k (handleSettingChange m s) = getField k s)
  ∧ getField FieldKey.showPageStructure (togglePageStructure s)
      = FieldValue.bool (!s.showPageStructure)
  ∧ (k ≠ FieldKey.showPageStructure →
      getField k (togglePageStructure s) = getField k s) := by
  refine ⟨?_, ?_, rfl, ?_⟩
  · cases m <;> rfl
  · cases m <;> cases k <;> intro h <;>
      first
        | rfl
        | exact absurd rfl h
  · cases k <;> intro h <;>
      first
        | rfl
        | exact absurd rfl h

/-- C9 witness: mutating `highlightLinks` on the default record leaves
`colorShift` unchanged. -/
theorem single_field_mutation_frame_witness :
    FieldKey.colorShift ≠ (Mutation.setHighlightLinks true).key
  ∧ getField FieldKey.colorShift
      (handleSettingChange (Mutation.setHighlightLinks true) defaultSettings)
      = getField FieldKey.colorShift defaultSettings :=
  ⟨by decide,
    (single_field_mutation_frame (Mutation.setHighlightLinks true)
      defaultSettings FieldKey.colorShift).2.1 (by decide)⟩

/-- The three per-element passes preserve the tag. -/
theorem styleAll_tag (s : AccessibilitySettings) (e : Elem) :
    (styleAll s e).tag = e.tag := by
  by_cases h1 : e.tag = "a" <;> by_cases h2 : e.tag = "img" <;>
    simp [styleAll, styleLink, styleOutline, styleImg, h1, h2]

/-- The three per-element passes preserve the id. -/
theorem styleAll_id (s : AccessibilitySettings) (e : Elem) :
    (styleAll s e).id = e.id := by
  by_cases h1 : e.tag = "a" <;> by_cases h2 : e.tag = "img" <;>
    simp [styleAll, styleLink, styleOutline, styleImg, h1, h2]

/-- One element's style work is idempotent: every property is assigned a
value depending only on the settings and the (preserved) tag. -/
theorem styleAll_idem (s : AccessibilitySettings) (e : Elem) :
    styleAll s (styleAll s e) = styleAll s e := by
  by_cases h1 : e.tag = "a" <;> by_cases h2 : e.tag = "img" <;>
    simp [styleAll, styleLink, styleOutline, styleImg, h1, h2]

/-- The applier in packaged form: the three style passes fused into one
map, then the guide step, wrapped in the root/body slots. -/
theorem applySettings_eq (s : AccessibilitySettings) (d : Dom) :
    applySettings s d = mkDom s (guideStep s (d.elems.map (styleAll s))) := by
  simp only [applySettings, mkDom, guideStep, List.map_map]
  rfl

/-- Projection of `mkDom`. -/
theorem mkDom_elems (s : AccessibilitySettings) (es : List Elem) :
    (mkDom s es).elems = es := rfl

/-- Styling twice is styling once, over a whole list. -/
theorem map_styleAll_idem (s : AccessibilitySettings) (es : List Elem) :
    (es.map (styleAll s)).map (styleAll s) = es.map (styleAll s) := by
  induction es with
  | nil => rfl
  | cons e es ih => simp only [List.map_cons, styleAll_idem, ih]

/-- Styling does not change which elements bear the guide id. -/
theorem hasGuide_map_styleAll (s : AccessibilitySettings) (es : List Elem) :
    hasGuide (es.map (styleAll s)) = hasGuide es := by
  induction es with
  | nil => rfl
  | cons e es ih =>
      simp only [hasGuide, List.map_cons, List.any_cons, styleAll_id] at ih ⊢
      rw [ih]

/-- Styling does not change the number of guide elements. -/
theorem countGuide_map_styleAll (s : AccessibilitySettings) (es : List Elem) :
    countGuide (es.map (styleAll s)) = countGuide es := by
  induction es with
  | nil => rfl
  | cons e es ih =>
      simp only [countGuide, List.map_cons, List.filter_cons, styleAll_id] at ih ⊢
      split <;> simp [ih]

/-- Styling commutes with removing the first guide element. -/
theorem removeFirstGuide_map_styleAll (s : AccessibilitySettings) (es : List Elem) :
    removeFirstGuide (es.map (styleAll s)) = (removeFirstGuide es).map (styleAll s) := by
  induction es with
  | nil => rfl
  | cons e es ih =>
      simp only [List.map_cons, removeFirstGuide, styleAll_id]
      split <;> simp [ih]

/-- No guide element means zero guide count. -/
theorem hasGuide_false_iff (es : List Elem) :
    hasGuide es = false ↔ countGuide es = 0 := by
  induction es with
  | nil => simp [hasGuide, countGuide]
  | cons e es ih =>
      simp only [hasGuide, countGuide, List.any_cons, List.filter_cons] at ih ⊢
      by_cases h : e.id = guideId <;> simp [h, ih]

/-- A present guide element means a positive guide count. -/
theorem one_le_countGuide_of_hasGuide (es : List Elem) (h : hasGuide es = true) :
    1 ≤ countGuide es := by
  by_contra hlt
  have h0 : countGuide es = 0 := by omega
  rw [(hasGuide_false_iff es).mpr h0] at h
  exact Bool.false_ne_true h

/-- Removing from a guide-free list changes nothing. -/
theorem removeFirstGuide_of_not_has (es : List Elem) (h : hasGuide es = false) :
    removeFirstGuide es = es := by
  induction es with
  | nil => rfl
  | cons e es ih =>
      simp only [hasGuide, List.any_cons, Bool.or_eq_false_iff] at h
      simp only [removeFirstGuide]
      rw [if_neg (by simpa using h.1), ih (by simpa [hasGuide] using h.2)]

/-- Removing the first guide element from a list with at most one empties
the guide count. -/
theorem countGuide_removeFirstGuide (es : List Elem) (h : countGuide es ≤ 1) :
    countGuide (removeFirstGuide es) = 0 := by
  induction es with
  | nil => rfl
  | cons e es ih =>
      by_cases hg : e.id = guideId
      · have hc : countGuide (e :: es) = countGuide es + 1 := by
          simp [countGuide, List.filter_cons, hg]
        simp only [removeFirstGuide, if_pos hg]
        omega
      · have hc : countGuide (e :: es) = countGuide es := by
          simp [countGuide, List.filter_cons, hg]
        have hc2 : countGuide (e :: removeFirstGuide es)
            = countGuide (removeFirstGuide es) := by
          simp [countGuide, List.filter_cons, hg]
        simp only [removeFirstGuide, if_neg hg]
        rw [hc2, ih (by omega)]

/-- Appending the guide element adds one to the guide count. -/
theorem countGuide_append_guide (es : List Elem) :
    countGuide (es ++ [guideLineElem]) = countGuide es + 1 := by
  simp [countGuide, List.filter_append, guideLineElem]

/-- A list ending in the guide element has a guide. -/
theorem hasGuide_append_guide (es : List Elem) :
    hasGuide (es ++ [guideLineElem]) = true := by
  simp [hasGuide, List.any_append, guideLineElem]

/-- With the focus outline off, styling leaves the freshly created guide
element unchanged (its background survives the link pass because its tag is
`div`, its display survives the image pass likewise, and its outline is the
empty string the focus pass re-assigns). -/
theorem styleAll_guideLineElem (s : AccessibilitySettings)
    (h : s.focusEnabled = false) :
    styleAll s guideLineElem = guideLineElem := by
  simp [styleAll, styleLink, styleOutline, styleImg, guideLineElem, h]

/-- The guide step leaves exactly one guide element when enabled and zero
when disabled, provided the page carried at most one. -/
theorem countGuide_guideStep (s : AccessibilitySettings) (es : List Elem)
    (h : countGuide es ≤ 1) :
    countGuide (guideStep s es) = if s.guideEnabled then 1 else 0 := by
  unfold guideStep
  by_cases hg : s.guideEnabled
  · rw [if_pos hg, if_pos hg]
    by_cases hh : hasGuide es
    · rw [if_pos hh]
      have := one_le_countGuide_of_hasGuide es hh
      omega
    · rw [if_neg hh]
      rw [countGuide_append_guide]
      have : countGuide es = 0 :=
        (hasGuide_false_iff es).mp (Bool.of_not_eq_true hh)
      omega
  · rw [if_neg hg, if_neg hg]
    exact countGuide_removeFirstGuide es h

/-- Core of the amended idempotence claim, at the element-list level: a
second run of style passes plus guide step changes nothing, provided the
page carried at most one guide element and the exceptional corner (focus
outline on while a fresh guide is being created) is excluded. -/
theorem guideStep_restyle_fixed (s : AccessibilitySettings) (es : List Elem)
    (hcount : countGuide es ≤ 1)
    (h : s.focusEnabled = false ∨ s.guideEnabled = false ∨ hasGuide es = true) :
    guideStep s ((guideStep s (es.map (styleAll s))).map (styleAll s))
      = guideStep s (es.map (styleAll s)) := by
  unfold guideStep
  by_cases hg : s.guideEnabled
  · rw [if_pos hg, if_pos hg]
    by_cases hh : hasGuide es
    · rw [hasGuide_map_styleAll s es, if_pos hh, map_styleAll_idem s es,
        hasGuide_map_styleAll s es, if_pos hh]
    · have hfocus : s.focusEnabled = false := by
        rcases h with h1 | h2 | h3
        · exact h1
        · rw [hg] at h2; exact absurd h2 (by simp)
        · exact absurd h3 hh
      rw [hasGuide_map_styleAll s es, if_neg hh, List.map_append,
        map_styleAll_idem s es, List.map_singleton,
        styleAll_guideLineElem s hfocus,
        hasGuide_append_guide (es.map (styleAll s))]
      simp
  · rw [if_neg hg, if_neg hg]
    rw [← removeFirstGuide_map_styleAll s (es.map (styleAll s)),
      map_styleAll_idem s es]
    have h0 : countGuide (removeFirstGuide (es.map (styleAll s))) = 0 := by
      refine countGuide_removeFirstGuide (es.map (styleAll s)) ?_
      rw [countGuide_map_styleAll]
      omega
    rw [removeFirstGuide_of_not_has _ ((hasGuide_false_iff _).mpr h0)]

/-- C5 counterexample: on an empty page, applying the record with
`focusEnabled` and `guideEnabled` both on twice differs from applying it
once — the guide line created by the first run receives its focus outline
only during the second run, because the applier assigns outlines (lines
82-85) before it creates the guide element (lines 100-113). -/
theorem apply_twice_differs_on_fresh_guide :
    applySettings focusGuideSettings (applySettings focusGuideSettings emptyDom)
      ≠ applySettings focusGuideSettings emptyDom := by
  decide

/-- C5 (amended): applying the same settings record twice yields the same
page as applying it once whenever the focus outline is off, or the guide is
off, or the guide element already exists — the sole exception being the
focus outline of a freshly created guide element (see the counterexample);
and, unconditionally in the settings, enabling the guide leaves exactly one
guide element after one or two runs, while disabling it leaves zero, on any
page that carried at most one. -/
theorem apply_idempotent_amended (s : AccessibilitySettings) (d : Dom)
    (hcount : countGuide d.elems ≤ 1) :
    ((s.focusEnabled = false ∨ s.guideEnabled = false ∨ hasGuide d.elems = true) →
        applySettings s (applySettings s d) = applySettings s d)
  ∧ (s.guideEnabled = true →
        countGuide (applySettings s (applySettings s d)).elems = 1
      ∧ countGuide (applySettings s d).elems = 1)
  ∧ (s.guideEnabled = false →
        countGuide (applySettings s d).elems = 0) := by
  have hA : countGuide (d.elems.map (styleAll s)) = countGuide d.elems :=
    countGuide_map_styleAll s d.elems
  have hone : countGuide (applySettings s d).elems
      = if s.guideEnabled then 1 else 0 := by
    rw [applySettings_eq, mkDom_elems]
    exact countGuide_guideStep s _ (by omega)
  have htwo : countGuide (applySettings s (applySettings s d)).elems
      = if s.guideEnabled then 1 else 0 := by
    rw [applySettings_eq, mkDom_elems]
    refine countGuide_guideStep s _ ?_
    rw [countGuide_map_styleAll, hone]
    split <;> omega
  refine ⟨fun h => ?_, fun hg => ?_, fun hg => ?_⟩
  · rw [applySettings_eq s d, applySettings_eq s (mkDom s _), mkDom_elems]
    refine congrArg (mkDom s) ?_
    refine guideStep_restyle_fixed s d.elems (by omega) ?_
    rcases h with h1 | h2 | h3
    · exact Or.inl h1
    · exact Or.inr (Or.inl h2)
    · exact Or.inr (Or.inr h3)
  · rw [hone, htwo, if_pos hg]
    exact ⟨rfl, rfl⟩
  · rw [hone, if_neg (by simp [hg])]

/-- C5 witness: the amended theorem at the default record on the empty
page. -/
theorem apply_idempotent_amended_witness :
    countGuide emptyDom.elems ≤ 1
  ∧ applySettings defaultSettings (applySettings defaultSettings emptyDom)
      = applySettings defaultSettings emptyDom :=
  ⟨by decide,
    (apply_idempotent_amended defaultSettings emptyDom (by decide)).1
      (Or.inl rfl)⟩

/-- Membership survives removal of the first guide element. -/
theorem mem_of_mem_removeFirstGuide (es : List Elem) (e : Elem)
    (h : e ∈ removeFirstGuide es) : e ∈ es := by
  induction es with
  | nil => exact h
  | cons a es ih =>
      by_cases ha : a.id = guideId
      · rw [removeFirstGuide, if_pos ha] at h
        exact List.mem_cons_of_mem a h
      · rw [removeFirstGuide, if_neg ha] at h
        rcases List.mem_cons.mp h with h1 | h2
        · exact h1 ▸ List.mem_cons_self a es
        · exact List.mem_cons_of_mem a (ih h2)

/-- Every element of an applied page is either the guide element or the
styled image of some element. -/
theorem mem_applySettings_elems (s : AccessibilitySettings) (d : Dom) (e : Elem)
    (h : e ∈ (applySettings s d).elems) :
    e = guideLineElem ∨ ∃ e0, e = styleAll s e0 := by
  rw [applySettings_eq, mkDom_elems] at h
  unfold guideStep at h
  by_cases hg : s.guideEnabled
  · rw [if_pos hg] at h
    by_cases hh : hasGuide (d.elems.map (styleAll s))
    · rw [if_pos hh] at h
      rcases List.mem_map.mp h with ⟨e0, _, he⟩
      exact Or.inr ⟨e0, he.symm⟩
    · rw [if_neg hh] at h
      rcases List.mem_append.mp h with h1 | h2
      · rcases List.mem_map.mp h1 with ⟨e0, _, he⟩
        exact Or.inr ⟨e0, he.symm⟩
      · exact Or.inl (List.mem_singleton.mp h2)
  · rw [if_neg hg] at h
    rcases List.mem_map.mp (mem_of_mem_removeFirstGuide _ _ h) with ⟨e0, _, he⟩
    exact Or.inr ⟨e0, he.symm⟩

/-- With images visible, the styled form of any element tagged `img`
carries the literal display `"block"`. -/
theorem styleAll_img_display (s : AccessibilitySettings) (e : Elem)
    (himg : (styleAll s e).tag = "img") (hvis : s.imagesVisible = true) :
    (styleAll s e).style.display = "block" := by
  rw [styleAll_tag] at himg
  simp [styleAll, styleLink, styleOutline, styleImg, himg, hvis]

/-- C10: with `imagesVisible` true, the applier assigns the literal inline
display `"block"` to every image — it does not restore an image's original
display value; concretely, a page whose one image started with display
`"inline"` ends with display `"block"` after toggling `imagesVisible` off
and back on. -/
theorem images_forced_display_block (s : AccessibilitySettings) (d : Dom)
    (h : s.imagesVisible = true) :
    (∀ e, e ∈ (applySettings s d).elems → e.tag = "img" →
        e.style.display = "block")
  ∧ (inlineImgDom.elems.map fun e => e.style.display) = ["inline"]
  ∧ ((applySettings defaultSettings
        (applySettings { defaultSettings with imagesVisible := false }
          inlineImgDom)).elems.map fun e => e.style.display) = ["block"] := by
  refine ⟨?_, rfl, rfl⟩
  intro e he htag
  rcases mem_applySettings_elems s d e he with hguide | ⟨e0, rfl⟩
  · rw [hguide] at htag
    exact absurd htag (by decide)
  · exact styleAll_img_display s e0 htag h

/-- C10 witness: the theorem at the default record (images visible) on the
one-image page, applied to that page's single styled element. -/
theorem images_forced_display_block_witness :
    defaultSettings.imagesVisible = true
  ∧ ({ tag := "img", style := { display := "block" } } : Elem).style.display
      = "block" :=
  ⟨rfl,
    (images_forced_display_block defaultSettings inlineImgDom rfl).1
      { tag := "img", style := { display := "block" } } (by decide) rfl⟩

end Mile3Pizza
